import Mathlib

/-!
Verification of the financial calculation module
(src/tools/financial_tools.py) of the aigateway-adk-streamlit-demo
repository.  The calculators are pure numeric functions; we embed them
over the exact rationals, with Python rounding (round half to even)
made explicit wherever the source rounds for display.
-/

namespace FinancialTools

/-- Round a rational to the nearest integer, ties going to the even
integer — the behaviour of Python round on an exact value. -/
def roundHalfEven (q : ℚ) : ℤ :=
  if q - (⌊q⌋ : ℚ) = 1/2 then (if ⌊q⌋ % 2 = 0 then ⌊q⌋ else ⌊q⌋ + 1)
  else ⌊q + 1/2⌋

/-- Python round(x, n) on an exact rational value. -/
def pyRound (n : ℕ) (q : ℚ) : ℚ :=
  ((roundHalfEven (q * 10 ^ n) : ℚ)) / 10 ^ n

/-- numpy_financial pmt with fv = 0 and payments at period end: the
level payment solving pv·(1+r)^n + pmt·((1+r)^n − 1)/r = 0, with the
zero-rate branch pmt = −pv/n that npf.pmt applies when rate == 0. -/
def npfPmt (rate : ℚ) (nper : ℕ) (pv : ℚ) : ℚ :=
  if rate = 0 then -(pv / nper)
  else -(pv * rate * (1 + rate) ^ nper / ((1 + rate) ^ nper - 1))

/-- The payment variable of calculate_loan_payment: payment = −npf.pmt(...). -/
def loanPayment (rate : ℚ) (nper : ℕ) (pv : ℚ) : ℚ :=
  -(npfPmt rate nper pv)

/-- The running balance of the amortization loop of
calculate_loan_payment after k periods: each period takes interest
= balance × periodic rate, principal portion = payment − interest,
and the balance decreases by the principal portion. -/
def loanBalance (periodicRate payment principal : ℚ) : ℕ → ℚ
  | 0 => principal
  | k + 1 =>
    let b := loanBalance periodicRate payment principal k
    b - (payment - b * periodicRate)

/-- Sum of the principal portions produced by the amortization
recurrence of calculate_loan_payment over the first n periods. -/
def principalPortionSum (periodicRate payment principal : ℚ) (n : ℕ) : ℚ :=
  ∑ k ∈ Finset.range n, (payment - loanBalance periodicRate payment principal k * periodicRate)

/-- One row of the abbreviated amortization schedule
(period is 1-based; all displayed values rounded to cents). -/
structure AmortizationEntry where
  period : ℕ
  payment : ℚ
  principal : ℚ
  interest : ℚ
  balance : ℚ
deriving Repr, DecidableEq

/-- Row for period p (p ≥ 1) of the schedule built by calculate_loan_payment. -/
def amortEntry (periodicRate payment principal : ℚ) (p : ℕ) : AmortizationEntry :=
  let b := loanBalance periodicRate payment principal (p - 1)
  let interestPayment := b * periodicRate
  let principalPayment := payment - interestPayment
  { period := p
    payment := pyRound 2 payment
    principal := pyRound 2 principalPayment
    interest := pyRound 2 interestPayment
    balance := pyRound 2 (loanBalance periodicRate payment principal p) }

/-- Result record of calculate_loan_payment. -/
structure LoanResult where
  payment_amount : ℚ
  payment_frequency : String
  total_payments : ℕ
  total_interest : ℚ
  amortization_preview : List AmortizationEntry
deriving Repr, DecidableEq

/-- Shallow embedding of calculate_loan_payment.  The unrecognized
frequency branch raises ValueError, modelled as Except.error. -/
def calculate_loan_payment (principal annual_interest_rate : ℚ)
    (loan_term_years : ℕ) (payment_frequency : String) :
    Except String LoanResult :=
  let rate := annual_interest_rate / 100
  let pp? : Option (ℕ × ℚ) :=
    if payment_frequency = "monthly" then some (loan_term_years * 12, rate / 12)
    else if payment_frequency = "biweekly" then some (loan_term_years * 26, rate / 26)
    else if payment_frequency = "weekly" then some (loan_term_years * 52, rate / 52)
    else none
  match pp? with
  | none => .error "Payment frequency must be \x27monthly\x27, \x27biweekly\x27, or \x27weekly\x27"
  | some (periods, periodic_rate) =>
    let payment := loanPayment periodic_rate periods principal
    let schedule := (List.range (min 3 periods)).map
      (fun i => amortEntry periodic_rate payment principal (i + 1))
    .ok
      { payment_amount := pyRound 2 payment
        payment_frequency := payment_frequency
        total_payments := periods
        total_interest := pyRound 2 (payment * periods - principal)
        amortization_preview := schedule }

theorem roundHalfEven_sub_abs_le (q : ℚ) : |(roundHalfEven q : ℚ) - q| ≤ 1/2 := by
  unfold roundHalfEven
  split_ifs with h h2
  · have e : ((⌊q⌋ : ℤ) : ℚ) - q = -(1/2) := by linarith
    rw [e, abs_neg, abs_of_pos] <;> norm_num
  · have e : (((⌊q⌋ + 1 : ℤ)) : ℚ) - q = 1/2 := by push_cast; linarith
    rw [e, abs_of_pos] <;> norm_num
  · rw [← round_eq, abs_sub_comm]
    exact abs_sub_round q

theorem pyRound_sub_abs_le (n : ℕ) (q : ℚ) :
    |pyRound n q - q| ≤ 1 / (2 * 10 ^ n) := by
  have h10 : (0:ℚ) < 10 ^ n := by positivity
  have e : pyRound n q - q = ((roundHalfEven (q * 10 ^ n) : ℚ) - q * 10 ^ n) / 10 ^ n := by
    rw [pyRound]; field_simp; ring
  rw [e, abs_div, abs_of_pos h10]
  calc |(roundHalfEven (q * 10 ^ n) : ℚ) - q * 10 ^ n| / 10 ^ n
      ≤ (1/2) / 10 ^ n := by gcongr; exact roundHalfEven_sub_abs_le _
    _ = 1 / (2 * 10 ^ n) := by ring

theorem pyRound2_sub_abs_le (q : ℚ) : |pyRound 2 q - q| ≤ 1/200 := by
  have := pyRound_sub_abs_le 2 q
  norm_num at this
  convert this using 2 <;> norm_num

theorem roundHalfEven_intCast (a : ℤ) : roundHalfEven (a : ℚ) = a := by
  unfold roundHalfEven
  have h1 : ¬((a:ℚ) - ((⌊(a:ℚ)⌋ : ℤ) : ℚ) = 1/2) := by
    rw [Int.floor_intCast]; norm_num
  rw [if_neg h1, ← round_eq, round_intCast]

theorem pyRound2_cents (a : ℤ) : pyRound 2 ((a : ℚ) / 100) = (a : ℚ) / 100 := by
  have e : ((a : ℚ) / 100) * 10 ^ 2 = (a : ℚ) := by
    rw [show ((10:ℚ) ^ 2) = 100 from by norm_num]
    exact div_mul_cancel₀ _ (by norm_num)
  rw [pyRound, e, roundHalfEven_intCast]
  norm_num

/- Telescoping: the principal portions over the first n periods sum to
the drop of the running balance. -/
theorem principalPortionSum_eq_sub (r pay P : ℚ) (n : ℕ) :
    principalPortionSum r pay P n = P - loanBalance r pay P n := by
  induction n with
  | zero => simp [principalPortionSum, loanBalance]
  | succ k ih =>
    rw [principalPortionSum, Finset.sum_range_succ, ← principalPortionSum, ih]
    simp only [loanBalance]
    ring

/- Closed form of the amortization balance for a nonzero periodic rate. -/
theorem loanBalance_closed (r pay P : ℚ) (hr : r ≠ 0) (k : ℕ) :
    loanBalance r pay P k = (P - pay / r) * (1 + r) ^ k + pay / r := by
  induction k with
  | zero => simp [loanBalance]
  | succ k ih =>
    simp only [loanBalance, ih]
    field_simp
    ring

theorem loanBalance_zero_rate (pay P : ℚ) (k : ℕ) :
    loanBalance 0 pay P k = P - k * pay := by
  induction k with
  | zero => simp [loanBalance]
  | succ k ih =>
    simp only [loanBalance, ih]
    push_cast
    ring

/- With the annuity payment of npf.pmt, the balance is exactly zero
after the full number of periods. -/
theorem loanBalance_final (r P : ℚ) (n : ℕ) (hr : 0 ≤ r) (hn : n ≠ 0) :
    loanBalance r (loanPayment r n P) P n = 0 := by
  rcases eq_or_lt_of_le hr with h0 | hpos
  · subst h0
    have hpay : loanPayment 0 n P = P / n := by
      simp [loanPayment, npfPmt]
    rw [hpay, loanBalance_zero_rate]
    have hn' : ((n:ℚ)) ≠ 0 := Nat.cast_ne_zero.mpr hn
    field_simp
  · have hr' : r ≠ 0 := ne_of_gt hpos
    have hA : (1:ℚ) < (1 + r) ^ n := one_lt_pow₀ (by linarith) hn
    have hA' : (1 + r) ^ n - 1 ≠ 0 := sub_ne_zero.mpr (ne_of_gt hA)
    rw [loanBalance_closed r _ P hr', loanPayment, npfPmt, if_neg hr']
    field_simp
    ring

theorem principalPortionSum_full (r P : ℚ) (n : ℕ) (hr : 0 ≤ r) (hn : n ≠ 0) :
    principalPortionSum r (loanPayment r n P) P n = P := by
  rw [principalPortionSum_eq_sub, loanBalance_final r P n hr hn, sub_zero]

/-- C1: for every principal > 0, annual rate ≥ 0, whole-year term > 0
and recognized payment frequency, running the per-period recurrence of
calculate_loan_payment (interest = balance × periodic rate, principal
portion = payment − interest, balance decreases by the principal
portion) for all total_periods periods makes the principal portions
sum to the principal exactly; and the returned total_interest plus the
principal equals payment × total_payments to within cent-rounding
tolerance (within 1/200 of the exact payment × periods, and within
(1 + periods)/200 of the cent-rounded payment_amount × periods). -/
theorem loan_amortization_totals (P annualRate : ℚ) (years : ℕ) (freq : String) (ppy : ℕ)
    (hP : 0 < P) (hr : 0 ≤ annualRate) (hy : 0 < years)
    (hf : (freq = "monthly" ∧ ppy = 12) ∨ (freq = "biweekly" ∧ ppy = 26) ∨
          (freq = "weekly" ∧ ppy = 52)) :
    principalPortionSum (annualRate/100/ppy)
        (loanPayment (annualRate/100/ppy) (years*ppy) P) P (years*ppy) = P ∧
    ∃ res, calculate_loan_payment P annualRate years freq = .ok res ∧
      res.total_payments = years * ppy ∧
      |res.total_interest + P -
        loanPayment (annualRate/100/ppy) (years*ppy) P * (years*ppy : ℕ)| ≤ 1/200 ∧
      |res.total_interest + P - res.payment_amount * (years*ppy : ℕ)| ≤
        (1 + (years*ppy : ℕ)) / 200 := by
  have hrp : (0:ℚ) ≤ annualRate/100/ppy := by positivity
  have hn : years * ppy ≠ 0 := by
    rcases hf with ⟨_, h⟩ | ⟨_, h⟩ | ⟨_, h⟩ <;> subst h <;> omega
  refine ⟨principalPortionSum_full _ _ _ hrp hn, ?_⟩
  set r := annualRate/100/ppy with hrdef
  set pay := loanPayment r (years*ppy) P with hpaydef
  have key : ∀ res : LoanResult,
      res.total_interest = pyRound 2 (pay * (years*ppy : ℕ) - P) →
      res.payment_amount = pyRound 2 pay →
      |res.total_interest + P - pay * (years*ppy : ℕ)| ≤ 1/200 ∧
      |res.total_interest + P - res.payment_amount * (years*ppy : ℕ)| ≤
        (1 + (years*ppy : ℕ)) / 200 := by
    intro res hti hpa
    constructor
    · have e : res.total_interest + P - pay * (years*ppy : ℕ) =
          pyRound 2 (pay * (years*ppy : ℕ) - P) - (pay * (years*ppy : ℕ) - P) := by
        rw [hti]; ring
      rw [e]; exact pyRound2_sub_abs_le _
    · have e : res.total_interest + P - res.payment_amount * (years*ppy : ℕ) =
          (pyRound 2 (pay * (years*ppy : ℕ) - P) - (pay * (years*ppy : ℕ) - P)) +
          (pay - pyRound 2 pay) * (years*ppy : ℕ) := by
        rw [hti, hpa]; ring
      rw [e]
      have h1 := pyRound2_sub_abs_le (pay * (years*ppy : ℕ) - P)
      have h2 := pyRound2_sub_abs_le pay
      have h2' : |pay - pyRound 2 pay| ≤ 1/200 := by rwa [abs_sub_comm] at h2
      have hNn : (0:ℚ) ≤ (years*ppy : ℕ) := Nat.cast_nonneg _
      calc |(pyRound 2 (pay * (years*ppy : ℕ) - P) - (pay * (years*ppy : ℕ) - P)) +
            (pay - pyRound 2 pay) * (years*ppy : ℕ)|
          ≤ |pyRound 2 (pay * (years*ppy : ℕ) - P) - (pay * (years*ppy : ℕ) - P)| +
            |(pay - pyRound 2 pay) * (years*ppy : ℕ)| := abs_add _ _
        _ = |pyRound 2 (pay * (years*ppy : ℕ) - P) - (pay * (years*ppy : ℕ) - P)| +
            |pay - pyRound 2 pay| * (years*ppy : ℕ) := by
              rw [abs_mul, abs_of_nonneg hNn]
        _ ≤ 1/200 + (1/200) * (years*ppy : ℕ) := by
              gcongr
        _ = (1 + (years*ppy : ℕ)) / 200 := by ring
  rcases hf with ⟨hfe, hpe⟩ | ⟨hfe, hpe⟩ | ⟨hfe, hpe⟩ <;> subst hfe <;> subst hpe <;>
    exact ⟨_, rfl, rfl, key _ rfl rfl⟩

/-- Witness for loan_amortization_totals at principal 1000, rate 5
percent, 1 year, monthly payments. -/
theorem loan_amortization_totals_witness :
    (0:ℚ) < 1000 ∧ (0:ℚ) ≤ 5 ∧ 0 < 1 ∧
    (principalPortionSum (5/100/12) (loanPayment (5/100/12) (1*12) 1000) 1000 (1*12) = 1000 ∧
     ∃ res, calculate_loan_payment 1000 5 1 "monthly" = .ok res ∧
       res.total_payments = 1*12 ∧
       |res.total_interest + 1000 -
         loanPayment (5/100/12) (1*12) 1000 * ((1*12 : ℕ) : ℚ)| ≤ 1/200 ∧
       |res.total_interest + 1000 - res.payment_amount * ((1*12 : ℕ) : ℚ)| ≤
         (1 + ((1*12 : ℕ) : ℚ)) / 200) :=
  ⟨by norm_num, by norm_num, by norm_num,
   loan_amortization_totals 1000 5 1 "monthly" 12 (by norm_num) (by norm_num)
     (by norm_num) (Or.inl ⟨rfl, rfl⟩)⟩

/-- One step of the year-by-year compounding loop of
calculate_investment_returns, iterated k times from a start value:
current = current × (1 + periodic rate) + per-period contribution. -/
def investIter (periodicRate contribution start : ℚ) : ℕ → ℚ
  | 0 => start
  | k + 1 => investIter periodicRate contribution start k * (1 + periodicRate) + contribution

/-- Future value of the periodic contribution stream, with the
zero-or-negative-rate branch of the source (ordinary annuity formula
when the periodic rate is positive, contribution × periods otherwise). -/
def contributionFV (periodicRate contribution : ℚ) (totalPeriods : ℕ) : ℚ :=
  if periodicRate > 0 then
    contribution * ((1 + periodicRate) ^ totalPeriods - 1) / periodicRate
  else contribution * totalPeriods

/-- Row of the year-by-year growth summary (values rounded to cents). -/
structure YearlyEntry where
  year : ℕ
  start_value : ℚ
  contributions : ℚ
  growth : ℚ
  end_value : ℚ
deriving Repr, DecidableEq

/-- Row for year y (1-based) of the summary loop of
calculate_investment_returns: the running value before the loop body of
year y is the value after (y−1) full years of period-by-period
compounding, and the value after is the value after y full years. -/
def yearlyEntry (periodicRate contribution initial monthly : ℚ) (ppy y : ℕ) : YearlyEntry :=
  let sv := investIter periodicRate contribution initial ((y - 1) * ppy)
  let ev := investIter periodicRate contribution initial (y * ppy)
  let yc := monthly * 12
  { year := y
    start_value := pyRound 2 sv
    contributions := pyRound 2 yc
    growth := pyRound 2 (ev - sv - yc)
    end_value := pyRound 2 ev }

/-- Result record of calculate_investment_returns. -/
structure InvestmentResult where
  total_future_value : ℚ
  total_contributions : ℚ
  total_earnings : ℚ
  after_tax_earnings : Option ℚ
  after_tax_future_value : Option ℚ
  compound_frequency : String
  yearly_summary : List YearlyEntry
deriving Repr, DecidableEq

/-- Shallow embedding of calculate_investment_returns.  The timestamp
is absent in the source here; the unrecognized compounding frequency
branch raises ValueError, modelled as Except.error. -/
def calculate_investment_returns (initial_investment monthly_contribution annual_return_rate : ℚ)
    (investment_period_years : ℕ) (compound_frequency : String) (tax_rate : Option ℚ) :
    Except String InvestmentResult :=
  let rate := annual_return_rate / 100
  let ppy? : Option ℕ :=
    if compound_frequency = "monthly" then some 12
    else if compound_frequency = "quarterly" then some 4
    else if compound_frequency = "annually" then some 1
    else none
  match ppy? with
  | none => .error "Compound frequency must be \x27monthly\x27, \x27quarterly\x27, or \x27annually\x27"
  | some periods_per_year =>
    let periodic_rate := rate / periods_per_year
    let total_periods := investment_period_years * periods_per_year
    let period_contribution := monthly_contribution * (12 / (periods_per_year : ℚ))
    let future_value := initial_investment * (1 + periodic_rate) ^ total_periods
    let contribution_future_value := contributionFV periodic_rate period_contribution total_periods
    let total_future_value := future_value + contribution_future_value
    let total_contributions := initial_investment + monthly_contribution * 12 * investment_period_years
    let total_earnings := total_future_value - total_contributions
    let after_tax_earnings : Option ℚ :=
      match tax_rate with
      | some t => some (total_earnings * (1 - t / 100))
      | none => none
    let after_tax_future_value : Option ℚ :=
      match tax_rate with
      | some t => some (total_contributions + total_earnings * (1 - t / 100))
      | none => none
    let yearly_summary := (List.range (min 5 investment_period_years)).map
      (fun i => yearlyEntry periodic_rate period_contribution initial_investment
        monthly_contribution periods_per_year (i + 1))
    .ok
      { total_future_value := pyRound 2 total_future_value
        total_contributions := pyRound 2 total_contributions
        total_earnings := pyRound 2 total_earnings
        after_tax_earnings := after_tax_earnings.map (pyRound 2)
        after_tax_future_value := after_tax_future_value.map (pyRound 2)
        compound_frequency := compound_frequency
        yearly_summary := yearly_summary }

theorem investIter_zero_rate (c s : ℚ) (n : ℕ) : investIter 0 c s n = s + c * n := by
  induction n with
  | zero => simp [investIter]
  | succ k ih =>
    simp only [investIter, ih]
    push_cast
    ring

theorem investIter_closed (p c s : ℚ) (hp : p ≠ 0) (n : ℕ) :
    investIter p c s n = s * (1 + p) ^ n + c * ((1 + p) ^ n - 1) / p := by
  induction n with
  | zero => simp [investIter]
  | succ k ih =>
    simp only [investIter, ih, pow_succ]
    field_simp
    ring

/- The period-by-period walk agrees exactly with the closed form used
for total_future_value, for any nonnegative periodic rate. -/
theorem investIter_eq_closedForm (p c s : ℚ) (hp : 0 ≤ p) (n : ℕ) :
    investIter p c s n = s * (1 + p) ^ n + contributionFV p c n := by
  rcases eq_or_lt_of_le hp with h0 | hpos
  · subst h0
    rw [investIter_zero_rate, contributionFV, if_neg (lt_irrefl 0)]
    simp
  · rw [investIter_closed p c s (ne_of_gt hpos) n, contributionFV, if_pos hpos]

/- Any entry read out of the yearly summary list of
calculate_investment_returns is the row for its (1-based) year. -/
theorem summary_entry_eq (p c init monthly : ℚ) (ppy N i : ℕ) (e : YearlyEntry)
    (h : ((List.range N).map (fun j => yearlyEntry p c init monthly ppy (j+1)))[i]? = some e) :
    i < N ∧ e = yearlyEntry p c init monthly ppy (i+1) := by
  rw [List.getElem?_map, Option.map_eq_some'] at h
  obtain ⟨a, ha, hfe⟩ := h
  rw [List.getElem?_eq_some_iff] at ha
  obtain ⟨hlen, hget⟩ := ha
  rw [List.getElem_range] at hget
  subst hget
  rw [List.length_range] at hlen
  exact ⟨hlen, hfe.symm⟩

/- The first row of the yearly summary list records the initial
investment (cent-rounded) as its start value. -/
theorem summary_first (p c init monthly : ℚ) (ppy N : ℕ) (h0 : 0 < N) :
    ∃ e, ((List.range N).map (fun j => yearlyEntry p c init monthly ppy (j+1)))[0]? = some e ∧
      e.start_value = pyRound 2 init := by
  refine ⟨yearlyEntry p c init monthly ppy (0+1), ?_, ?_⟩
  · rw [List.getElem?_map, List.getElem?_range h0]
    rfl
  · simp [yearlyEntry, investIter]

/-- C2: for every valid input with a 5-year horizon (initial ≥ 0,
monthly contribution ≥ 0, annual rate ≥ 0, recognized frequency), the
end_value of the 5th yearly_summary entry — obtained by iterating
current = current × (1 + periodic rate) + per-period contribution for
periods-per-year steps per year — equals the closed-form
total_future_value; the agreement is exact before rounding, hence the
two cent-rounded fields coincide. -/
theorem investment_year5_boundary (init monthly annualRate : ℚ) (freq : String) (ppy : ℕ)
    (tax : Option ℚ)
    (hi : 0 ≤ init) (hm : 0 ≤ monthly) (hr : 0 ≤ annualRate)
    (hf : (freq = "monthly" ∧ ppy = 12) ∨ (freq = "quarterly" ∧ ppy = 4) ∨
          (freq = "annually" ∧ ppy = 1)) :
    ∃ res, calculate_investment_returns init monthly annualRate 5 freq tax = .ok res ∧
      ∃ e, res.yearly_summary.getLast? = some e ∧ e.end_value = res.total_future_value := by
  have key : ∀ p c : ℚ, 0 ≤ p → ∀ N : ℕ,
      pyRound 2 (investIter p c init N) =
        pyRound 2 (init * (1 + p) ^ N + contributionFV p c N) := by
    intro p c hp N
    rw [investIter_eq_closedForm p c init hp N]
  rcases hf with ⟨hfe, hpe⟩ | ⟨hfe, hpe⟩ | ⟨hfe, hpe⟩ <;> subst hfe <;> subst hpe <;>
  · refine ⟨_, rfl, _, rfl, ?_⟩
    exact key _ _ (by positivity) _

/-- Witness for investment_year5_boundary at initial 1000, monthly
contribution 100, rate 6 percent, monthly compounding, no tax. -/
theorem investment_year5_boundary_witness :
    (0:ℚ) ≤ 1000 ∧ (0:ℚ) ≤ 100 ∧ (0:ℚ) ≤ 6 ∧
    (∃ res, calculate_investment_returns 1000 100 6 5 "monthly" none = .ok res ∧
      ∃ e, res.yearly_summary.getLast? = some e ∧ e.end_value = res.total_future_value) :=
  ⟨by norm_num, by norm_num, by norm_num,
   investment_year5_boundary 1000 100 6 "monthly" 12 none (by norm_num) (by norm_num)
     (by norm_num) (Or.inl ⟨rfl, rfl⟩)⟩

/-- C3: both calculators handle a zero annual rate without division by
zero: the zero-rate loan payment is principal / total periods and the
zero-rate contribution stream future value is contribution × total
periods; concretely, calculate_loan_payment(12000, 0, 1, monthly)
returns payment_amount 1000.00 with total_interest 0.00, and
calculate_investment_returns(1000, 0, 0, 5, annually) returns
total_future_value 1000.00 with total_earnings 0.00. -/
theorem zero_rate_degenerate :
    (∃ res, calculate_loan_payment 12000 0 1 "monthly" = .ok res ∧
       res.payment_amount = 1000 ∧ res.total_interest = 0) ∧
    (∃ res, calculate_investment_returns 1000 0 0 5 "annually" none = .ok res ∧
       res.total_future_value = 1000 ∧ res.total_earnings = 0) ∧
    (∀ (P : ℚ) (n : ℕ), loanPayment 0 n P = P / n) ∧
    (∀ (c : ℚ) (n : ℕ), contributionFV 0 c n = c * n) := by
  refine ⟨⟨_, rfl, ?_, ?_⟩, ⟨_, rfl, ?_, ?_⟩, ?_, ?_⟩
  · norm_num [pyRound, roundHalfEven, loanPayment, npfPmt]
  · norm_num [pyRound, roundHalfEven, loanPayment, npfPmt]
  · norm_num [pyRound, roundHalfEven, contributionFV]
  · norm_num [pyRound, roundHalfEven, contributionFV]
  · intro P n
    simp [loanPayment, npfPmt]
  · intro c n
    simp [contributionFV]

/-- C9: for every valid input the yearly_summary of
calculate_investment_returns has exactly min(5, years) entries with
year indices 1, 2, ... in order; the first entry has the
(cent-rounded) initial investment as its start_value, and each
subsequent entry has as start_value the end_value of the entry before
it — both are the same
running value before rounding, so the rounded fields agree exactly. -/
theorem yearly_summary_structure (init monthly annualRate : ℚ) (years : ℕ) (freq : String)
    (ppy : ℕ) (tax : Option ℚ) (hy : 0 < years)
    (hf : (freq = "monthly" ∧ ppy = 12) ∨ (freq = "quarterly" ∧ ppy = 4) ∨
          (freq = "annually" ∧ ppy = 1)) :
    ∃ res, calculate_investment_returns init monthly annualRate years freq tax = .ok res ∧
      res.yearly_summary.length = min 5 years ∧
      (∀ i e, res.yearly_summary[i]? = some e → e.year = i + 1) ∧
      (∀ i e e', res.yearly_summary[i]? = some e → res.yearly_summary[i+1]? = some e' →
        e'.start_value = e.end_value) ∧
      (∃ e, res.yearly_summary[0]? = some e ∧ e.start_value = pyRound 2 init) := by
  have h0 : 0 < min 5 years := by omega
  rcases hf with ⟨hfe, hpe⟩ | ⟨hfe, hpe⟩ | ⟨hfe, hpe⟩ <;> subst hfe <;> subst hpe <;>
  · refine ⟨_, rfl, by simp, ?_, ?_, ?_⟩
    · intro i e h
      obtain ⟨_, rfl⟩ := summary_entry_eq _ _ _ _ _ _ _ _ h
      rfl
    · intro i e e' h h'
      obtain ⟨_, rfl⟩ := summary_entry_eq _ _ _ _ _ _ _ _ h
      obtain ⟨_, rfl⟩ := summary_entry_eq _ _ _ _ _ _ _ _ h'
      rfl
    · exact summary_first _ _ init _ _ _ h0

/-- Witness for yearly_summary_structure at a 3-year quarterly input. -/
theorem yearly_summary_structure_witness :
    0 < 3 ∧
    (∃ res, calculate_investment_returns 500 50 4 3 "quarterly" none = .ok res ∧
      res.yearly_summary.length = min 5 3 ∧
      (∀ i e, res.yearly_summary[i]? = some e → e.year = i + 1) ∧
      (∀ i e e', res.yearly_summary[i]? = some e → res.yearly_summary[i+1]? = some e' →
        e'.start_value = e.end_value) ∧
      (∃ e, res.yearly_summary[0]? = some e ∧ e.start_value = pyRound 2 500)) :=
  ⟨by norm_num,
   yearly_summary_structure 500 50 4 3 "quarterly" 4 none (by norm_num)
     (Or.inr (Or.inl ⟨rfl, rfl⟩))⟩

theorem roundHalfEven_nonpos (q : ℚ) (h : q ≤ 0) : roundHalfEven q ≤ 0 := by
  unfold roundHalfEven
  split_ifs with h1 h2
  · exact Int.floor_nonpos h
  · have hf : (⌊q⌋ : ℚ) = q - 1/2 := by linarith
    have hf2 : (⌊q⌋ : ℚ) ≤ -(1/2) := by linarith
    have hf3 : (⌊q⌋ : ℚ) < 0 := by linarith
    have : ⌊q⌋ < 0 := by exact_mod_cast hf3
    omega
  · have : ⌊q + 1/2⌋ ≤ ⌊(1/2 : ℚ)⌋ := Int.floor_le_floor (by linarith)
    have h12 : ⌊(1/2 : ℚ)⌋ = 0 := by norm_num
    omega

theorem pyRound2_nonpos (q : ℚ) (h : q ≤ 0) : pyRound 2 q ≤ 0 := by
  rw [pyRound]
  apply div_nonpos_of_nonpos_of_nonneg
  · exact_mod_cast roundHalfEven_nonpos _ (by nlinarith)
  · positivity

/-- Result record of calculate_mortgage_payment. -/
structure MortgageResult where
  loan_amount : ℚ
  down_payment_percent : ℚ
  monthly_principal_interest : ℚ
  monthly_property_tax : ℚ
  monthly_insurance : ℚ
  monthly_pmi : ℚ
  total_monthly_payment : ℚ
  total_payment_over_term : ℚ
deriving Repr, DecidableEq

/-- Shallow embedding of calculate_mortgage_payment (a total function:
the source has no validation branch, only arithmetic). -/
def calculate_mortgage_payment (home_price down_payment annual_interest_rate : ℚ)
    (loan_term_years : ℕ) (property_tax_rate annual_insurance : ℚ) (include_pmi : Bool) :
    MortgageResult :=
  let loan_amount := home_price - down_payment
  let down_payment_percent := down_payment / home_price * 100
  let monthly_rate := annual_interest_rate / 100 / 12
  let num_payments := loan_term_years * 12
  let monthly_pi := loanPayment monthly_rate num_payments loan_amount
  let monthly_property_tax := home_price * property_tax_rate / 100 / 12
  let monthly_insurance := annual_insurance / 12
  let monthly_pmi :=
    if include_pmi = true ∧ down_payment_percent < 20 then
      loan_amount * (0.5 + (20 - down_payment_percent) * 0.025) / 100 / 12
    else 0
  let total_monthly_payment := monthly_pi + monthly_property_tax + monthly_insurance + monthly_pmi
  { loan_amount := pyRound 2 loan_amount
    down_payment_percent := pyRound 2 down_payment_percent
    monthly_principal_interest := pyRound 2 monthly_pi
    monthly_property_tax := pyRound 2 monthly_property_tax
    monthly_insurance := pyRound 2 monthly_insurance
    monthly_pmi := pyRound 2 monthly_pmi
    total_monthly_payment := pyRound 2 total_monthly_payment
    total_payment_over_term := pyRound 2 (total_monthly_payment * num_payments) }

/-- C4: calculate_mortgage_payment includes PMI exactly when
include_pmi is true and the down-payment percent is strictly below 20:
the monthly_pmi field is the cent-rounding of the conditional PMI
formula (loan amount × (0.5 + (20 − down%) × 0.025) / 100 / 12 when it
applies, 0 otherwise); at exactly 20 percent down monthly_pmi = 0, and
at 19 percent down the annual PMI rate factor is 0.525 percent. -/
theorem mortgage_pmi_rule (price down annualRate ptr ins : ℚ) (years : ℕ) (ipmi : Bool)
    (hp : 0 < price) :
    ((calculate_mortgage_payment price down annualRate years ptr ins ipmi).monthly_pmi =
      pyRound 2 (if ipmi = true ∧ down / price * 100 < 20 then
        (price - down) * (0.5 + (20 - down / price * 100) * 0.025) / 100 / 12 else 0)) ∧
    (down / price * 100 = 20 →
      (calculate_mortgage_payment price down annualRate years ptr ins ipmi).monthly_pmi = 0) ∧
    (down / price * 100 = 19 →
      0.5 + (20 - down / price * 100) * 0.025 = 0.525 ∧
      (calculate_mortgage_payment price down annualRate years ptr ins true).monthly_pmi =
        pyRound 2 ((price - down) * 0.525 / 100 / 12)) := by
  have e : ∀ b : Bool, (calculate_mortgage_payment price down annualRate years ptr ins b).monthly_pmi =
      pyRound 2 (if b = true ∧ down / price * 100 < 20 then
        (price - down) * (0.5 + (20 - down / price * 100) * 0.025) / 100 / 12 else 0) :=
    fun _ => rfl
  refine ⟨e ipmi, ?_, ?_⟩
  · intro h20
    rw [e ipmi, h20]
    norm_num [pyRound, roundHalfEven]
  · intro h19
    constructor
    · rw [h19]; norm_num
    · rw [e true, h19, if_pos (by norm_num)]
      congr 1
      ring

/-- Witness for mortgage_pmi_rule at a 100000 home with 19000 down,
where PMI applies at the 0.525 percent annual rate. -/
theorem mortgage_pmi_rule_witness :
    (0:ℚ) < 100000 ∧
    (calculate_mortgage_payment 100000 19000 6 30 1 1000 true).monthly_pmi =
      pyRound 2 ((100000 - 19000) * 0.525 / 100 / 12) :=
  ⟨by norm_num,
   ((mortgage_pmi_rule 100000 19000 6 1 1000 30 true (by norm_num)).2.2 (by norm_num)).2⟩

/-- C5: for down_payment ≥ home_price (> 0) calculate_mortgage_payment
still returns a result (the embedding is a total function, as the
source has no error path), whose loan_amount field is home_price −
down_payment cent-rounded — hence nonpositive, and exactly equal to
home_price − down_payment whenever that difference is a whole number of
cents; nothing is corrected or clamped. -/
theorem mortgage_overpayment_passthrough (price down annualRate ptr ins : ℚ) (years : ℕ)
    (ipmi : Bool) (hp : 0 < price) (hd : price ≤ down) :
    ((calculate_mortgage_payment price down annualRate years ptr ins ipmi).loan_amount =
      pyRound 2 (price - down)) ∧
    (calculate_mortgage_payment price down annualRate years ptr ins ipmi).loan_amount ≤ 0 ∧
    (∀ a : ℤ, price - down = (a : ℚ) / 100 →
      (calculate_mortgage_payment price down annualRate years ptr ins ipmi).loan_amount =
        price - down) := by
  refine ⟨rfl, ?_, ?_⟩
  · exact pyRound2_nonpos _ (by linarith)
  · intro a ha
    calc (calculate_mortgage_payment price down annualRate years ptr ins ipmi).loan_amount
        = pyRound 2 (price - down) := rfl
      _ = pyRound 2 ((a : ℚ) / 100) := by rw [ha]
      _ = (a : ℚ) / 100 := pyRound2_cents a
      _ = price - down := ha.symm

/-- Witness for mortgage_overpayment_passthrough at a 100000 home with
a 120000 down payment: the loan amount −20000 is passed through. -/
theorem mortgage_overpayment_passthrough_witness :
    (0:ℚ) < 100000 ∧ (100000:ℚ) ≤ 120000 ∧
    (calculate_mortgage_payment 100000 120000 5 30 1 1000 true).loan_amount =
      (100000 - 120000 : ℚ) :=
  ⟨by norm_num, by norm_num,
   (mortgage_overpayment_passthrough 100000 120000 5 1 1000 30 true (by norm_num)
     (by norm_num)).2.2 (-2000000) (by norm_num)⟩

/-- C6: calculate_loan_payment rejects with a validation error exactly
when the payment frequency is none of monthly, biweekly, weekly, and
calculate_investment_returns rejects exactly when the compounding
frequency is none of monthly, quarterly, annually; in particular
calculate_loan_payment(1000, 5, 1, daily) is rejected with a
descriptive message rather than returning a result. -/
theorem frequency_validation :
    (∀ (P r : ℚ) (y : ℕ) (freq : String),
      (∃ msg, calculate_loan_payment P r y freq = .error msg) ↔
        ¬(freq = "monthly" ∨ freq = "biweekly" ∨ freq = "weekly")) ∧
    (∀ (i m r : ℚ) (y : ℕ) (freq : String) (tax : Option ℚ),
      (∃ msg, calculate_investment_returns i m r y freq tax = .error msg) ↔
        ¬(freq = "monthly" ∨ freq = "quarterly" ∨ freq = "annually")) ∧
    (∃ msg, calculate_loan_payment 1000 5 1 "daily" = .error msg) := by
  refine ⟨?_, ?_, ⟨_, rfl⟩⟩
  · intro P r y freq
    by_cases h1 : freq = "monthly"
    · subst h1; simp [calculate_loan_payment]
    by_cases h2 : freq = "biweekly"
    · subst h2; simp [calculate_loan_payment]
    by_cases h3 : freq = "weekly"
    · subst h3; simp [calculate_loan_payment]
    simp [calculate_loan_payment, h1, h2, h3]
  · intro i m r y freq tax
    by_cases h1 : freq = "monthly"
    · subst h1; simp [calculate_investment_returns]
    by_cases h2 : freq = "quarterly"
    · subst h2; simp [calculate_investment_returns]
    by_cases h3 : freq = "annually"
    · subst h3; simp [calculate_investment_returns]
    simp [calculate_investment_returns, h1, h2, h3]

/-- Witness for frequency_validation: the daily frequency is rejected. -/
theorem frequency_validation_witness :
    ∃ msg, calculate_loan_payment 1000 5 1 "daily" = .error msg :=
  frequency_validation.2.2

/-- The .upper() normalization applied by get_exchange_rate to the
currency codes, phrased on the character data of the string so that it
evaluates structurally. -/
def pyUpper (s : String) : String :=
  ⟨s.data.map Char.toUpper⟩

/-- The fixed mock table of rates against USD used by
get_exchange_rate. -/
def mock_rates : List (String × ℚ) :=
  [("USD", 1.0), ("EUR", 0.93), ("GBP", 0.78), ("JPY", 151.2), ("CAD", 1.37),
   ("AUD", 1.52), ("CHF", 0.91), ("CNY", 7.25), ("INR", 83.4), ("MXN", 16.8)]

/-- The supported currency codes: the keys of mock_rates. -/
def supportedCurrencies : List String :=
  mock_rates.map Prod.fst

/-- Result of get_exchange_rate: either a structured success payload or
a structured error payload carrying the error flag and message (the
timestamp field of the source is wall-clock and not modelled). -/
inductive ExchangeResult where
  | ok (from_currency to_currency : String) (exchange_rate amount converted_amount : ℚ)
  | error (message : String)
deriving Repr, DecidableEq

/-- Shallow embedding of get_exchange_rate: codes are uppercased, both
must be in the table, rate = table[target] / table[source], with the
rate reported to 6 decimal places and the converted amount to cents. -/
def get_exchange_rate (from_currency to_currency : String) (amount : ℚ) : ExchangeResult :=
  let f := pyUpper from_currency
  let t := pyUpper to_currency
  match mock_rates.lookup f, mock_rates.lookup t with
  | some usd_to_from, some usd_to_to =>
    let rate := usd_to_to / usd_to_from
    let converted_amount := amount * rate
    .ok f t (pyRound 6 rate) amount (pyRound 2 converted_amount)
  | _, _ =>
    .error ("Currency not supported. Supported currencies: " ++
      String.intercalate ", " supportedCurrencies)

/-- The raw (pre-rounding) conversion rate computed by
get_exchange_rate when both codes are supported. -/
def rawExchangeRate (from_currency to_currency : String) : Option ℚ :=
  match mock_rates.lookup (pyUpper from_currency), mock_rates.lookup (pyUpper to_currency) with
  | some usd_to_from, some usd_to_to => some (usd_to_to / usd_to_from)
  | _, _ => none

/- A key is absent from the lookup table exactly when it is not a
supported code. -/
theorem lookup_none_iff (k : String) :
    mock_rates.lookup k = none ↔ k ∉ supportedCurrencies := by
  rw [List.lookup_eq_none_iff]
  simp [mock_rates, supportedCurrencies]

/- Every supported code is uppercase-stable and maps to a positive
table entry. -/
theorem lookup_toUpper_pos (a : String) (ha : a ∈ supportedCurrencies) :
    pyUpper a = a ∧ ∃ r, mock_rates.lookup a = some r ∧ 0 < r := by
  simp only [supportedCurrencies, mock_rates, List.map_cons, List.map_nil,
    List.mem_cons, List.not_mem_nil, or_false] at ha
  rcases ha with h|h|h|h|h|h|h|h|h|h <;> subst h <;>
    exact ⟨rfl, _, rfl, by norm_num⟩

/-- C7: for every amount and every pair of currency codes of which at
least one, after uppercasing, is absent from the fixed 10-entry table,
get_exchange_rate returns normally with the structured error payload
(the error variant) whose message lists the supported codes. -/
theorem unsupported_currency_soft_error (from_c to_c : String) (amount : ℚ)
    (h : pyUpper from_c ∉ supportedCurrencies ∨ pyUpper to_c ∉ supportedCurrencies) :
    get_exchange_rate from_c to_c amount =
      .error ("Currency not supported. Supported currencies: " ++
        String.intercalate ", " supportedCurrencies) ∧
    ("Currency not supported. Supported currencies: " ++
        String.intercalate ", " supportedCurrencies) =
      "Currency not supported. Supported currencies: USD, EUR, GBP, JPY, CAD, AUD, CHF, CNY, INR, MXN" := by
  refine ⟨?_, rfl⟩
  rcases h with h | h
  · have h1 : mock_rates.lookup (pyUpper from_c) = none := (lookup_none_iff _).mpr h
    simp [get_exchange_rate, h1]
  · have h2 : mock_rates.lookup (pyUpper to_c) = none := (lookup_none_iff _).mpr h
    cases hf : mock_rates.lookup (pyUpper from_c) with
    | none => simp [get_exchange_rate, hf, h2]
    | some rf => simp [get_exchange_rate, hf, h2]

/-- Witness for unsupported_currency_soft_error at USD to XYZ with
amount 1. -/
theorem unsupported_currency_soft_error_witness :
    (pyUpper "XYZ" ∉ supportedCurrencies) ∧
    (get_exchange_rate "USD" "XYZ" 1 =
      .error ("Currency not supported. Supported currencies: " ++
        String.intercalate ", " supportedCurrencies) ∧
     ("Currency not supported. Supported currencies: " ++
        String.intercalate ", " supportedCurrencies) =
      "Currency not supported. Supported currencies: USD, EUR, GBP, JPY, CAD, AUD, CHF, CNY, INR, MXN") :=
  ⟨by decide,
   unsupported_currency_soft_error "USD" "XYZ" 1 (Or.inr (by decide))⟩

/-- C8: for every pair of supported codes (matched case-insensitively
via uppercasing) and every amount, get_exchange_rate returns the rate
table[target] / table[source] rounded to 6 decimal places and the
converted amount amount × rate rounded to cents; in particular the
identity conversion USD to USD of 100 yields rate 1.0 and converted
amount 100.00. -/
theorem exchange_rate_formula :
    (∀ (from_c to_c : String) (amount rf rt : ℚ),
      mock_rates.lookup (pyUpper from_c) = some rf →
      mock_rates.lookup (pyUpper to_c) = some rt →
      get_exchange_rate from_c to_c amount =
        .ok (pyUpper from_c) (pyUpper to_c) (pyRound 6 (rt / rf)) amount
          (pyRound 2 (amount * (rt / rf)))) ∧
    get_exchange_rate "USD" "USD" 100 = .ok "USD" "USD" 1 100 100 := by
  have gen : ∀ (from_c to_c : String) (amount rf rt : ℚ),
      mock_rates.lookup (pyUpper from_c) = some rf →
      mock_rates.lookup (pyUpper to_c) = some rt →
      get_exchange_rate from_c to_c amount =
        .ok (pyUpper from_c) (pyUpper to_c) (pyRound 6 (rt / rf)) amount
          (pyRound 2 (amount * (rt / rf))) := by
    intro from_c to_c amount rf rt hf ht
    simp [get_exchange_rate, hf, ht]
  refine ⟨gen, ?_⟩
  have h1 : mock_rates.lookup (pyUpper "USD") = some 1.0 := rfl
  rw [gen "USD" "USD" 100 1.0 1.0 h1 h1]
  have hu : pyUpper "USD" = "USD" := rfl
  norm_num [hu, pyRound, roundHalfEven]

/-- Witness for the general part of exchange_rate_formula at the
lowercase pair usd, eur with amount 50. -/
theorem exchange_rate_formula_witness :
    mock_rates.lookup (pyUpper "usd") = some 1.0 ∧
    mock_rates.lookup (pyUpper "eur") = some 0.93 ∧
    get_exchange_rate "usd" "eur" 50 =
      .ok (pyUpper "usd") (pyUpper "eur") (pyRound 6 ((0.93 : ℚ) / 1.0)) 50
        (pyRound 2 (50 * ((0.93 : ℚ) / 1.0))) :=
  ⟨rfl, rfl, exchange_rate_formula.1 "usd" "eur" 50 1.0 0.93 rfl rfl⟩

/-- C10: for every two supported codes A and B, the raw conversion
rates computed by get_exchange_rate in the two directions are exact
reciprocals (their pre-rounding product is exactly 1, the table entries
being fixed positive rationals), and the raw rate from any supported
code to itself is exactly 1. -/
theorem exchange_rate_reciprocal :
    ∀ a ∈ supportedCurrencies, ∀ b ∈ supportedCurrencies,
      ∃ r r' : ℚ, rawExchangeRate a b = some r ∧ rawExchangeRate b a = some r' ∧
        r * r' = 1 ∧ rawExchangeRate a a = some 1 := by
  intro a ha b hb
  obtain ⟨hua, ra, hla, hpa⟩ := lookup_toUpper_pos a ha
  obtain ⟨hub, rb, hlb, hpb⟩ := lookup_toUpper_pos b hb
  have ha0 : ra ≠ 0 := ne_of_gt hpa
  have hb0 : rb ≠ 0 := ne_of_gt hpb
  refine ⟨rb / ra, ra / rb, ?_, ?_, ?_, ?_⟩
  · simp [rawExchangeRate, hua, hub, hla, hlb]
  · simp [rawExchangeRate, hua, hub, hla, hlb]
  · field_simp
  · simp only [rawExchangeRate, hua, hla]
    rw [div_self ha0]

/-- Witness for exchange_rate_reciprocal at the pair USD, EUR. -/
theorem exchange_rate_reciprocal_witness :
    "USD" ∈ supportedCurrencies ∧ "EUR" ∈ supportedCurrencies ∧
    (∃ r r' : ℚ, rawExchangeRate "USD" "EUR" = some r ∧
      rawExchangeRate "EUR" "USD" = some r' ∧
      r * r' = 1 ∧ rawExchangeRate "USD" "USD" = some 1) :=
  ⟨by decide, by decide,
   exchange_rate_reciprocal "USD" (by decide) "EUR" (by decide)⟩

end FinancialTools
